import Mathlib

/-!
Verification of the twitterapi-mcp-server response pipeline.

This file gives a shallow embedding, in Lean 4, of the pure core of
`src/index.ts`: the `DataCleaners` normalizers, the truncation and
envelope shaping done by the read operations, the `saveData` /
`formatResponse` persistence step, the session-cookie state machine of
`loginUser` / `createTweet`, and the dispatch-boundary error taxonomy.
JavaScript scalar values are modelled by the inductive `JVal`
(undefined, null, booleans, integers, strings); raw upstream objects
are modelled by structures whose fields hold `JVal` (a field that the
upstream JSON omits holds `JVal.undefined`, exactly as property access on a
JS object yields `undefined`).  File-system and HTTP effects are made
explicit: the file system is a list of written files, upstream
responses are inputs, and each operation also returns the list of
upstream requests it issued.
-/

/-- JavaScript scalar value: `undefined`, `null`, a boolean, a number
(modelled as an integer; `NaN` is not modelled), or a string. -/
inductive JVal where
  | undefined : JVal
  | null : JVal
  | bool : Bool → JVal
  | num : Int → JVal
  | str : String → JVal
  deriving Repr, DecidableEq

/-- JavaScript truthiness: `undefined`, `null`, `false`, `0` and the
empty string are falsy, everything else is truthy. -/
def JVal.truthy : JVal → Bool
  | .undefined => false
  | .null => false
  | .bool b => b
  | .num n => n != 0
  | .str s => s != ""

/-- A value is nullish when it is `null` or `undefined` (the values the
`??` operator skips). -/
def JVal.nullish : JVal → Bool
  | .undefined => true
  | .null => true
  | _ => false

/-- JavaScript `a || b`: the first operand if it is truthy, else the
second. -/
def jsOr (a b : JVal) : JVal := if a.truthy then a else b

/-- JavaScript `a ?? b` (nullish coalescing): the first operand unless
it is `null` or `undefined`, else the second. -/
def jsCoalesce (a b : JVal) : JVal := if a.nullish then b else a

/-- JavaScript `a || undefined`, used by the source for the `location`
and `url` fields. -/
def jsOrUndefined (a : JVal) : JVal := if a.truthy then a else .undefined

/-- Raw upstream user object, with every field name consulted by
`DataCleaners.cleanUser` in `src/index.ts`.  A field the upstream JSON
does not carry holds `JVal.undefined`. -/
structure RawUser where
  id : JVal := .undefined
  userName : JVal := .undefined
  screen_name : JVal := .undefined
  username : JVal := .undefined
  name : JVal := .undefined
  description : JVal := .undefined
  isVerified : JVal := .undefined
  verified : JVal := .undefined
  isBlueVerified : JVal := .undefined
  followers : JVal := .undefined
  followers_count : JVal := .undefined
  following : JVal := .undefined
  following_count : JVal := .undefined
  statusesCount : JVal := .undefined
  statuses_count : JVal := .undefined
  tweet_count : JVal := .undefined
  location : JVal := .undefined
  url : JVal := .undefined
  createdAt : JVal := .undefined
  created_at : JVal := .undefined
  deriving Repr, DecidableEq

/-- The canonical user shape produced by `DataCleaners.cleanUser`. -/
structure CleanedUser where
  id : JVal
  username : JVal
  name : JVal
  description : JVal
  verified : JVal
  followers : JVal
  following : JVal
  tweets : JVal
  location : JVal
  url : JVal
  created : JVal
  deriving Repr, DecidableEq

/-- Input to `cleanUser`: either a non-object JS value (this covers
`null`, `undefined` and scalar primitives) or a raw user object. -/
inductive UserInput where
  | prim : JVal → UserInput
  | obj : RawUser → UserInput
  deriving Repr, DecidableEq

/-- JS truthiness of a `cleanUser` input; every object is truthy. -/
def UserInput.truthy : UserInput → Bool
  | .prim v => v.truthy
  | .obj _ => true

/-- Property access view of a `cleanUser` input: on a primitive every
property read yields `undefined`, on an object it reads the field. -/
def UserInput.fields : UserInput → RawUser
  | .prim _ => {}
  | .obj u => u

namespace DataCleaners

/-- Embedding of `DataCleaners.cleanUser` from `src/index.ts`.  A falsy
input returns `null` (modelled by `none`); otherwise each canonical
field is resolved exactly as in the source (`||` chains for
`username`, `verified`, `created`; `??` chains for the counts;
`|| undefined` for `location` and `url`). -/
def cleanUser (user : UserInput) : Option CleanedUser :=
  if !user.truthy then none
  else
    let u := user.fields
    some {
      id := u.id
      username := jsOr u.userName (jsOr u.screen_name u.username)
      name := u.name
      description := u.description
      verified := jsOr u.isVerified (jsOr u.verified u.isBlueVerified)
      followers := jsCoalesce u.followers u.followers_count
      following := jsCoalesce u.following u.following_count
      tweets := jsCoalesce u.statusesCount (jsCoalesce u.statuses_count u.tweet_count)
      location := jsOrUndefined u.location
      url := jsOrUndefined u.url
      created := jsOr u.createdAt u.created_at }

end DataCleaners

/-- The nested `public_metrics` object of a raw tweet. -/
structure PublicMetrics where
  retweet_count : JVal := .undefined
  like_count : JVal := .undefined
  reply_count : JVal := .undefined
  quote_count : JVal := .undefined
  deriving Repr, DecidableEq

/-- Raw upstream tweet object, with every field name consulted by
`DataCleaners.cleanTweet` in `src/index.ts`.  `public_metrics` is
`none` when nullish or not an object (optional chaining then yields
`undefined` for its members). -/
structure RawTweet where
  id : JVal := .undefined
  text : JVal := .undefined
  author : UserInput := .prim .undefined
  createdAt : JVal := .undefined
  created_at : JVal := .undefined
  retweetCount : JVal := .undefined
  likeCount : JVal := .undefined
  replyCount : JVal := .undefined
  quoteCount : JVal := .undefined
  public_metrics : Option PublicMetrics := none
  viewCount : JVal := .undefined
  isReply : JVal := .undefined
  isRetweet : JVal := .undefined
  inReplyToId : JVal := .undefined
  in_reply_to : JVal := .undefined
  conversationId : JVal := .undefined
  lang : JVal := .undefined
  deriving Repr, DecidableEq

/-- The canonical tweet shape produced by `DataCleaners.cleanTweet`.
The `author` field is `none` when the raw author was falsy (the source
ternary yields `undefined` there). -/
structure CleanedTweet where
  id : JVal
  text : JVal
  author : Option CleanedUser
  created : JVal
  retweets : JVal
  likes : JVal
  replies : JVal
  quotes : JVal
  views : JVal
  isReply : JVal
  isRetweet : JVal
  inReplyTo : JVal
  conversationId : JVal
  lang : JVal
  deriving Repr, DecidableEq

/-- Input to `cleanTweet`: a non-object JS value or a raw tweet
object. -/
inductive TweetInput where
  | prim : JVal → TweetInput
  | obj : RawTweet → TweetInput
  deriving Repr, DecidableEq

/-- JS truthiness of a `cleanTweet` input; every object is truthy. -/
def TweetInput.truthy : TweetInput → Bool
  | .prim v => v.truthy
  | .obj _ => true

/-- Property access view of a `cleanTweet` input. -/
def TweetInput.fields : TweetInput → RawTweet
  | .prim _ => {}
  | .obj t => t

/-- Optional chaining `pm?.f`: `undefined` when `pm` is nullish or has
no such member, else the member. -/
def pmGet (pm : Option PublicMetrics) (f : PublicMetrics → JVal) : JVal :=
  match pm with
  | none => .undefined
  | some m => f m

namespace DataCleaners

/-- Embedding of `DataCleaners.cleanTweet` from `src/index.ts`.  A
falsy input returns `null`; the four count fields use `??` with the
flattened field first and the nested `public_metrics` member second. -/
def cleanTweet (tweet : TweetInput) : Option CleanedTweet :=
  if !tweet.truthy then none
  else
    let t := tweet.fields
    some {
      id := t.id
      text := t.text
      author := if t.author.truthy then cleanUser t.author else none
      created := jsOr t.createdAt t.created_at
      retweets := jsCoalesce t.retweetCount (pmGet t.public_metrics PublicMetrics.retweet_count)
      likes := jsCoalesce t.likeCount (pmGet t.public_metrics PublicMetrics.like_count)
      replies := jsCoalesce t.replyCount (pmGet t.public_metrics PublicMetrics.reply_count)
      quotes := jsCoalesce t.quoteCount (pmGet t.public_metrics PublicMetrics.quote_count)
      views := t.viewCount
      isReply := t.isReply
      isRetweet := t.isRetweet
      inReplyTo := jsOr t.inReplyToId t.in_reply_to
      conversationId := t.conversationId
      lang := t.lang }

end DataCleaners

/-- A JS value in a position where the code tests `Array.isArray`:
either an actual array of elements of type `α`, or any non-array JS
value. -/
inductive ListInput (α : Type) where
  | notArray : JVal → ListInput α
  | arr : List α → ListInput α
  deriving Repr, DecidableEq

/-- JS truthiness of a `ListInput`; every array (even empty) is
truthy. -/
def ListInput.truthy {α : Type} : ListInput α → Bool
  | .notArray v => v.truthy
  | .arr _ => true

/-- JavaScript `a || b` on values in array position. -/
def jsOrL {α : Type} (a b : ListInput α) : ListInput α :=
  if a.truthy then a else b

namespace DataCleaners

/-- Embedding of `DataCleaners.cleanUserList`: a non-array input
returns `[]`; an array is mapped through `cleanUser` and then filtered
with `Boolean`, which keeps exactly the non-null results (every object
is truthy). -/
def cleanUserList (users : ListInput UserInput) : List CleanedUser :=
  match users with
  | .notArray _ => []
  | .arr us => ((us.map cleanUser).filter (fun v => v.isSome)).filterMap id

/-- Embedding of `DataCleaners.cleanTweetList`: same shape as
`cleanUserList` with `cleanTweet` as the element normalizer. -/
def cleanTweetList (tweets : ListInput TweetInput) : List CleanedTweet :=
  match tweets with
  | .notArray _ => []
  | .arr ts => ((ts.map cleanTweet).filter (fun v => v.isSome)).filterMap id

end DataCleaners

/-- JavaScript `xs.slice(0, n)` for an integer `n`: for `n ≥ 0` the
first `min n (length xs)` elements; for `n < 0` the end index is
relative to the end of the array (`max (length xs + n) 0`). -/
def jsSlice {α : Type} (xs : List α) (n : Int) : List α :=
  if n < 0 then xs.take (xs.length - n.natAbs)
  else xs.take n.toNat

/-- The bound resolution `maxItems || 10` used by the truncating read
operations: an absent `max_items` — and, `0` being falsy, an explicit
`0` — falls back to `10`. -/
def resolveMax (maxItems : Option Int) : Int :=
  match maxItems with
  | none => 10
  | some v => if v = 0 then 10 else v

/-- The outbound pagination block `{hasNextPage, nextCursor}` built by
`formatResponse`. -/
structure Pagination where
  hasNextPage : JVal
  nextCursor : JVal
  deriving Repr, DecidableEq

/-- The `data` member of the outbound envelope: a cleaned single user,
a cleaned tweet list, or a cleaned user list. -/
inductive EnvData where
  | user : Option CleanedUser → EnvData
  | tweets : List CleanedTweet → EnvData
  | users : List CleanedUser → EnvData
  deriving Repr, DecidableEq

/-- Number of items in the `data` member when it is a list (0 for a
single entity). -/
def EnvData.listLen : EnvData → Nat
  | .user _ => 0
  | .tweets ts => ts.length
  | .users us => us.length

/-- The outbound envelope `{data, pagination?}` that `formatResponse`
serializes and optionally persists. -/
structure Envelope where
  data : EnvData
  pagination : Option Pagination
  deriving Repr, DecidableEq

/-- The raw pagination info `{has_next_page, next_cursor}` the
operations pass to `formatResponse`. -/
structure RawPagination where
  has_next_page : JVal := .undefined
  next_cursor : JVal := .undefined
  deriving Repr, DecidableEq

/-- The options object taken by `formatResponse`. -/
structure FormatOptions where
  saveDir : Option String := none
  toolName : Option String := none
  pagination : Option RawPagination := none
  deriving Repr, DecidableEq

/-- The file system visible to `saveData`: the list of files written,
each holding the (parsed) JSON payload that was stringified into it.
Storing the payload itself models that `JSON.parse` of the written
`JSON.stringify(data, null, 2)` text recovers `data`. -/
structure FS where
  files : List (String × Envelope)
  deriving Repr, DecidableEq

/-- Embedding of `saveData` from `src/index.ts`.  `disk` injects the
outcome of the file-system calls: `none` means directory creation and
write succeed, `some e` means they throw `e`.  `ts` is the
already-sanitized timestamp used in the filename.  On success exactly
the one new file is appended and its path returned; on failure the
file system is untouched and the string `Error saving: e` returned. -/
def saveData (fs : FS) (disk : Option String) (data : Envelope)
    (dir toolName ts : String) : FS × String :=
  match disk with
  | some e => (fs, "Error saving: " ++ e)
  | none =>
      let filepath := dir ++ "/" ++ toolName ++ "_" ++ ts ++ ".json"
      ({ files := fs.files ++ [(filepath, data)] }, filepath)

/-- Embedding of `formatResponse` from `src/index.ts`.  It builds the
envelope `{data, pagination?}`, persists it via `saveData` when both
`saveDir` and `toolName` are truthy, and returns the response —
modelled as the envelope that `encode` serializes plus the
`savedPath` string appended as the trailing note (empty when no save
happened) — together with the new file system. -/
def formatResponse (fs : FS) (disk : Option String) (ts : String)
    (cleanedData : EnvData) (options : FormatOptions) :
    (Envelope × String) × FS :=
  let output : Envelope :=
    { data := cleanedData
      pagination := options.pagination.map fun p =>
        { hasNextPage := p.has_next_page, nextCursor := p.next_cursor } }
  match options.saveDir, options.toolName with
  | some dir, some tool =>
      if dir = "" ∨ tool = "" then ((output, ""), fs)
      else
        let res := saveData fs disk output dir tool ts
        ((output, res.2), res.1)
  | _, _ => ((output, ""), fs)

/-- The conditional spread `...(saveDir && { saveDir })` used at every
`formatResponse` call site: the option is present only when the string
is truthy. -/
def optTruthy (s : Option String) : Option String :=
  match s with
  | some v => if v = "" then none else some v
  | none => none

/-- Upstream response shape for the tweet-list endpoints, with the
array-position fields those operations consult plus the pagination
fields. -/
structure TweetListResp where
  tweets : ListInput TweetInput := .notArray .undefined
  replies : ListInput TweetInput := .notArray .undefined
  data : ListInput TweetInput := .notArray .undefined
  has_next_page : JVal := .undefined
  next_cursor : JVal := .undefined
  deriving Repr, DecidableEq

/-- Upstream response shape for the user-list endpoints. -/
structure UserListResp where
  users : ListInput UserInput := .notArray .undefined
  followers : ListInput UserInput := .notArray .undefined
  followings : ListInput UserInput := .notArray .undefined
  data : ListInput UserInput := .notArray .undefined
  has_next_page : JVal := .undefined
  next_cursor : JVal := .undefined
  deriving Repr, DecidableEq

/-- The cleaned list built by `searchTweets`:
`DataCleaners.cleanTweetList(data.tweets || data.data || [])`. -/
def searchTweetsCleaned (resp : TweetListResp) : List CleanedTweet :=
  DataCleaners.cleanTweetList (jsOrL resp.tweets (jsOrL resp.data (.arr [])))

/-- The cleaned list built by `getUserTweets`:
`DataCleaners.cleanTweetList(data.tweets || data.data || [])`. -/
def userTweetsCleaned (resp : TweetListResp) : List CleanedTweet :=
  DataCleaners.cleanTweetList (jsOrL resp.tweets (jsOrL resp.data (.arr [])))

/-- The cleaned list built by `getTweetReplies`:
`DataCleaners.cleanTweetList(data.tweets || data.replies || data.data || [])`. -/
def tweetRepliesCleaned (resp : TweetListResp) : List CleanedTweet :=
  DataCleaners.cleanTweetList
    (jsOrL resp.tweets (jsOrL resp.replies (jsOrL resp.data (.arr []))))

/-- The cleaned list built by `getTweetById`:
`DataCleaners.cleanTweetList(data.tweets || data.data || [])`. -/
def tweetByIdCleaned (resp : TweetListResp) : List CleanedTweet :=
  DataCleaners.cleanTweetList (jsOrL resp.tweets (jsOrL resp.data (.arr [])))

/-- The cleaned list built by `getUserFollowers`:
`DataCleaners.cleanUserList(data.users || data.followers || data.data || [])`. -/
def followersCleaned (resp : UserListResp) : List CleanedUser :=
  DataCleaners.cleanUserList
    (jsOrL resp.users (jsOrL resp.followers (jsOrL resp.data (.arr []))))

/-- The cleaned list built by `getUserFollowing`:
`DataCleaners.cleanUserList(data.followings || data.users || data.data || [])`. -/
def followingCleaned (resp : UserListResp) : List CleanedUser :=
  DataCleaners.cleanUserList
    (jsOrL resp.followings (jsOrL resp.users (jsOrL resp.data (.arr []))))

/-- The cleaned list built by `searchUsers`:
`DataCleaners.cleanUserList(data.users || data.data || [])`. -/
def searchUsersCleaned (resp : UserListResp) : List CleanedUser :=
  DataCleaners.cleanUserList (jsOrL resp.users (jsOrL resp.data (.arr [])))

/-- Shaping part of `searchTweets` (everything after the upstream GET):
clean, truncate with `maxItems || 10`, and format with pagination. -/
def searchTweetsOp (fs : FS) (disk : Option String) (ts : String)
    (resp : TweetListResp) (saveDir : Option String) (maxItems : Option Int) :
    (Envelope × String) × FS :=
  formatResponse fs disk ts
    (.tweets (jsSlice (searchTweetsCleaned resp) (resolveMax maxItems)))
    { saveDir := optTruthy saveDir
      toolName := some "search_tweets"
      pagination := some { has_next_page := resp.has_next_page, next_cursor := resp.next_cursor } }

/-- Shaping part of `getUserTweets` (everything after the upstream
GET). -/
def getUserTweetsOp (fs : FS) (disk : Option String) (ts : String)
    (resp : TweetListResp) (saveDir : Option String) (maxItems : Option Int) :
    (Envelope × String) × FS :=
  formatResponse fs disk ts
    (.tweets (jsSlice (userTweetsCleaned resp) (resolveMax maxItems)))
    { saveDir := optTruthy saveDir
      toolName := some "get_user_tweets"
      pagination := some { has_next_page := resp.has_next_page, next_cursor := resp.next_cursor } }

/-- Shaping part of `getTweetReplies` (everything after the upstream
GET). -/
def getTweetRepliesOp (fs : FS) (disk : Option String) (ts : String)
    (resp : TweetListResp) (saveDir : Option String) (maxItems : Option Int) :
    (Envelope × String) × FS :=
  formatResponse fs disk ts
    (.tweets (jsSlice (tweetRepliesCleaned resp) (resolveMax maxItems)))
    { saveDir := optTruthy saveDir
      toolName := some "get_tweet_replies"
      pagination := some { has_next_page := resp.has_next_page, next_cursor := resp.next_cursor } }

/-- Shaping part of `getTweetById` (everything after the upstream GET).
The source cleans the list and passes it to `formatResponse` directly:
no `slice` is applied and the `maxItems` parameter is accepted but
never used, and no pagination is passed. -/
def getTweetByIdOp (fs : FS) (disk : Option String) (ts : String)
    (resp : TweetListResp) (saveDir : Option String) (maxItems : Option Int) :
    (Envelope × String) × FS :=
  formatResponse fs disk ts
    (.tweets (tweetByIdCleaned resp))
    { saveDir := optTruthy saveDir
      toolName := some "get_tweet_by_id"
      pagination := none }

/-- Shaping part of `getUserFollowers` (everything after the upstream
GET). -/
def getUserFollowersOp (fs : FS) (disk : Option String) (ts : String)
    (resp : UserListResp) (saveDir : Option String) (maxItems : Option Int) :
    (Envelope × String) × FS :=
  formatResponse fs disk ts
    (.users (jsSlice (followersCleaned resp) (resolveMax maxItems)))
    { saveDir := optTruthy saveDir
      toolName := some "get_user_followers"
      pagination := some { has_next_page := resp.has_next_page, next_cursor := resp.next_cursor } }

/-- Shaping part of `getUserFollowing` (everything after the upstream
GET). -/
def getUserFollowingOp (fs : FS) (disk : Option String) (ts : String)
    (resp : UserListResp) (saveDir : Option String) (maxItems : Option Int) :
    (Envelope × String) × FS :=
  formatResponse fs disk ts
    (.users (jsSlice (followingCleaned resp) (resolveMax maxItems)))
    { saveDir := optTruthy saveDir
      toolName := some "get_user_following"
      pagination := some { has_next_page := resp.has_next_page, next_cursor := resp.next_cursor } }

/-- Shaping part of `searchUsers` (everything after the upstream
GET). -/
def searchUsersOp (fs : FS) (disk : Option String) (ts : String)
    (resp : UserListResp) (saveDir : Option String) (maxItems : Option Int) :
    (Envelope × String) × FS :=
  formatResponse fs disk ts
    (.users (jsSlice (searchUsersCleaned resp) (resolveMax maxItems)))
    { saveDir := optTruthy saveDir
      toolName := some "search_users"
      pagination := some { has_next_page := resp.has_next_page, next_cursor := resp.next_cursor } }

/-- Process-wide mutable state of the server: the single
`loginCookie` slot, `null` at process start. -/
structure ServerState where
  loginCookie : JVal := .null
  deriving Repr, DecidableEq

/-- A value placed in a POST request body: a JS scalar or an array of
strings (for `media_ids`). -/
inductive BodyVal where
  | v : JVal → BodyVal
  | arr : List String → BodyVal
  deriving Repr, DecidableEq

/-- An upstream POST request: endpoint path and (ordered) body
fields. -/
structure PostRequest where
  endpoint : String
  body : List (String × BodyVal)
  deriving Repr, DecidableEq

/-- Arguments of the `login_user` tool as they reach `loginUser`. -/
structure LoginArgs where
  user_name : JVal := .undefined
  email : JVal := .undefined
  password : JVal := .undefined
  proxy : JVal := .undefined
  totp_secret : JVal := .undefined
  deriving Repr, DecidableEq

/-- Upstream response body of `/user_login_v2` as consulted by
`loginUser`: the `status`, `msg` and `login_cookie` fields. -/
structure LoginResp where
  status : JVal := .undefined
  msg : JVal := .undefined
  login_cookie : JVal := .undefined
  deriving Repr, DecidableEq

/-- The structured JSON body `loginUser` returns: the try branch
carries `{success, message, login_cookie}`, the catch branch carries
`{success: false, error}`. -/
inductive LoginResult where
  | ok : Bool → JVal → JVal → LoginResult
  | failed : String → LoginResult
  deriving Repr, DecidableEq

/-- The `success` field of the structured login result (`false` in the
catch branch). -/
def LoginResult.success : LoginResult → Bool
  | .ok s _ _ => s
  | .failed _ => false

/-- Embedding of `loginUser` from `src/index.ts`.  `upstream` is the
outcome of the POST to `/user_login_v2` (`Except.error` models a
thrown upstream error).  On any outcome a structured `LoginResult` is
returned, never an error at the dispatch boundary; the cookie slot is
overwritten exactly when the response carries a truthy
`login_cookie`. -/
def loginUser (st : ServerState) (a : LoginArgs)
    (upstream : Except String LoginResp) :
    LoginResult × ServerState × List PostRequest :=
  let payload : List (String × BodyVal) :=
    [("user_name", .v a.user_name), ("email", .v a.email),
     ("password", .v a.password), ("proxy", .v a.proxy)]
    ++ (if a.totp_secret.truthy then [("totp_secret", .v a.totp_secret)] else [])
  let req : PostRequest := { endpoint := "/user_login_v2", body := payload }
  match upstream with
  | .error e => (.failed e, st, [req])
  | .ok d =>
      let st' := if d.login_cookie.truthy then { st with loginCookie := d.login_cookie } else st
      (.ok (d.status == JVal.str "success")
           (jsOr d.msg (.str "Login successful"))
           d.login_cookie,
       st', [req])

/-- Arguments of the `create_tweet` tool as they reach
`createTweet`. -/
structure CreateTweetArgs where
  tweet_text : JVal := .undefined
  proxy : JVal := .undefined
  reply_to_tweet_id : JVal := .undefined
  attachment_url : JVal := .undefined
  media_ids : Option (List String) := none
  deriving Repr, DecidableEq

/-- Embedding of `createTweet` from `src/index.ts`.  When the cookie
slot is falsy (never set, i.e. still `null`) the operation throws
`Must login first before creating tweets` before issuing any POST and
leaves the state untouched; otherwise it POSTs the body — whose first
field carries the stored cookie as `login_cookies` — to
`/create_tweet_v2` and returns the upstream outcome verbatim. -/
def createTweet (st : ServerState) (a : CreateTweetArgs)
    (upstream : Except String JVal) :
    Except String JVal × ServerState × List PostRequest :=
  if !st.loginCookie.truthy then
    (.error "Must login first before creating tweets", st, [])
  else
    let body : List (String × BodyVal) :=
      [("login_cookies", .v st.loginCookie), ("tweet_text", .v a.tweet_text),
       ("proxy", .v a.proxy)]
      ++ (if a.reply_to_tweet_id.truthy then [("reply_to_tweet_id", .v a.reply_to_tweet_id)] else [])
      ++ (if a.attachment_url.truthy then [("attachment_url", .v a.attachment_url)] else [])
      ++ (match a.media_ids with
          | some ms => if 0 < ms.length then [("media_ids", .arr ms)] else []
          | none => [])
    (upstream, st, [{ endpoint := "/create_tweet_v2", body := body }])

/-- Error classes of the MCP dispatch boundary. -/
inductive McpErrorCode where
  | MethodNotFound : McpErrorCode
  | InvalidParams : McpErrorCode
  | InternalError : McpErrorCode
  deriving Repr, DecidableEq

/-- The required-argument list each tool declares in
`setupToolHandlers` of `src/index.ts`; `none` for a name that is not a
declared tool. -/
def toolRequired : String → Option (List String)
  | "get_user_by_username" => some ["username"]
  | "get_user_by_id" => some ["user_id"]
  | "get_user_tweets" => some []
  | "search_tweets" => some ["query"]
  | "get_tweet_by_id" => some ["tweet_ids"]
  | "get_tweet_replies" => some ["tweetId"]
  | "get_user_followers" => some ["username"]
  | "get_user_following" => some ["username"]
  | "search_users" => some ["query"]
  | "login_user" => some ["user_name", "email", "password", "proxy"]
  | "create_tweet" => some ["tweet_text", "proxy"]
  | _ => none

/-- Modelled from the spec: the call boundary for one tool request.
The in-repository part is the `CallToolRequest` handler of
`setupToolHandlers`: a missing argument object throws
`InvalidParams`, and a name that matches no case of the switch throws
`MethodNotFound`.  What is missing from `src/` is the per-tool
check of the required fields declared in each tool's input schema: the
spec states the argument objects are "validated by the transport's
declared schema (type, required fields, enums, numeric bounds) before
reaching this system's logic", that validation living in the external
MCP SDK.  It is modelled here, over the `toolRequired` lists taken
from the source's schema table, as rejecting a call whose argument
object lacks a required field with an invalid-params client error
before the handler body — and hence any upstream request — runs.
`argKeys` is the set of argument names present with a defined value
(`none` when the argument object itself is absent); `proceed` is the
operation body, returning its result together with the upstream
requests it issues. -/
def dispatchCall {α : Type} (name : String) (argKeys : Option (List String))
    (proceed : Unit → α × List PostRequest) :
    Except (McpErrorCode × String) α × List PostRequest :=
  match argKeys with
  | none => (.error (.InvalidParams, "Missing arguments"), [])
  | some keys =>
      match toolRequired name with
      | none => (.error (.MethodNotFound, "Unknown tool: " ++ name), [])
      | some req =>
          if req.all (fun r => keys.contains r) then
            let res := proceed ()
            (.ok res.1, res.2)
          else (.error (.InvalidParams, "Missing required argument"), [])

/-- Truncation contract of a list `out` obtained from `cleaned` under
an integer bound `n`: the length is `min` of list length and bound, the
elements are kept in their relative order (sublist), and a bound at
least the length leaves the list unchanged. -/
def truncatesTo {α : Type} (cleaned out : List α) (n : Int) : Prop :=
  out.length = min cleaned.length n.toNat
  ∧ List.Sublist out cleaned
  ∧ ((cleaned.length : Int) ≤ n → out = cleaned)

/-- For a nonnegative bound, `jsSlice` satisfies the truncation
contract. -/
theorem jsSlice_truncatesTo {α : Type} (xs : List α) (n : Int) (h : 0 ≤ n) :
    truncatesTo xs (jsSlice xs n) n := by
  have hn : ¬ n < 0 := not_lt.mpr h
  refine ⟨?_, ?_, ?_⟩
  · simp [jsSlice, hn, Nat.min_comm]
  · simp only [jsSlice, hn, if_false]
    exact List.take_sublist _ _
  · intro hle
    have hle' : xs.length ≤ n.toNat := by
      omega
    simp [jsSlice, hn, List.take_of_length_le hle']

/-- Filtering a list of options by `isSome` does not change what
`filterMap id` extracts. -/
theorem filter_isSome_filterMap {α : Type} (l : List (Option α)) :
    ((l.filter (fun v => v.isSome)).filterMap id) = l.filterMap id := by
  induction l with
  | nil => rfl
  | cons a t ih => cases a <;> simp [List.filter, List.filterMap, ih]

/-- The response envelope produced by `formatResponse` does not depend
on the persistence options: it is always `{data, pagination?}` with
the pagination fields renamed. -/
theorem formatResponse_envelope (fs : FS) (disk : Option String) (ts : String)
    (d : EnvData) (o : FormatOptions) :
    (formatResponse fs disk ts d o).1.1
      = { data := d
          pagination := o.pagination.map fun p =>
            { hasNextPage := p.has_next_page, nextCursor := p.next_cursor } } := by
  rcases o with ⟨sd, tn, p⟩
  cases sd <;> cases tn <;> simp only [formatResponse]
  split <;> rfl

/-- The verified flag as the claim words it: the first non-nullish
candidate among `isVerified`, `verified`, `isBlueVerified`, in that
order.  Stated from the spec so it can be compared with what
`DataCleaners.cleanUser` computes. -/
def specVerified (u : RawUser) : JVal :=
  if !u.isVerified.nullish then u.isVerified
  else if !u.verified.nullish then u.verified
  else u.isBlueVerified

/-- Raw user on which the code and the claim disagree about the
verified flag: `isVerified` is a defined `false`, `verified` is
`true`. -/
def c3User : RawUser := { isVerified := .bool false, verified := .bool true }

/-- C3 counterexample: on a raw user with `isVerified: false` and
`verified: true`, the first non-null candidate is `false`, but
`cleanUser` — which uses the `||` chain — produces `true`: a defined
`false` in an earlier candidate does not win. -/
theorem c3_counterexample :
    specVerified c3User = JVal.bool false
    ∧ (DataCleaners.cleanUser (.obj c3User)).map CleanedUser.verified
        = some (JVal.bool true)
    ∧ JVal.bool false ≠ JVal.bool true := by
  refine ⟨rfl, rfl, by decide⟩

/-- C3 (amended): for every raw user object the canonical verified
flag is the first truthy value among `isVerified`, `verified`,
`isBlueVerified`, tried in that order, and the value of
`isBlueVerified` when none is truthy; a defined `false` in an earlier
candidate is skipped, so a `true` in a later candidate wins. -/
theorem c3_verified_first_truthy (v : RawUser) :
    (DataCleaners.cleanUser (.obj v)).map CleanedUser.verified
      = some (if v.isVerified.truthy then v.isVerified
              else if v.verified.truthy then v.verified
              else v.isBlueVerified) := by
  simp [DataCleaners.cleanUser, UserInput.truthy, UserInput.fields, jsOr]

/-- Raw user carrying a flattened `followers` of `0` next to a nested
fallback of `100`. -/
def c4ZeroUser : RawUser := { followers := .num 0, followers_count := .num 100 }

/-- C4: every numeric count field of the canonical shape takes the
first defined (non-nullish) candidate, even when that value is falsy:
the `??` chains consult the fallback only when the flattened field is
`null` or `undefined`, and a flattened `0` is preserved (last
conjunct, where the nested candidate holds `100`). -/
theorem c4_first_defined_wins (u : RawUser) (t : RawTweet) :
    ((DataCleaners.cleanUser (.obj u)).map CleanedUser.followers
        = some (if u.followers.nullish then u.followers_count else u.followers))
    ∧ ((DataCleaners.cleanUser (.obj u)).map CleanedUser.following
        = some (if u.following.nullish then u.following_count else u.following))
    ∧ ((DataCleaners.cleanUser (.obj u)).map CleanedUser.tweets
        = some (if u.statusesCount.nullish then
                  (if u.statuses_count.nullish then u.tweet_count else u.statuses_count)
                else u.statusesCount))
    ∧ ((DataCleaners.cleanTweet (.obj t)).map CleanedTweet.retweets
        = some (if t.retweetCount.nullish then
                  pmGet t.public_metrics PublicMetrics.retweet_count
                else t.retweetCount))
    ∧ ((DataCleaners.cleanTweet (.obj t)).map CleanedTweet.likes
        = some (if t.likeCount.nullish then
                  pmGet t.public_metrics PublicMetrics.like_count
                else t.likeCount))
    ∧ ((DataCleaners.cleanTweet (.obj t)).map CleanedTweet.replies
        = some (if t.replyCount.nullish then
                  pmGet t.public_metrics PublicMetrics.reply_count
                else t.replyCount))
    ∧ ((DataCleaners.cleanTweet (.obj t)).map CleanedTweet.quotes
        = some (if t.quoteCount.nullish then
                  pmGet t.public_metrics PublicMetrics.quote_count
                else t.quoteCount))
    ∧ ((DataCleaners.cleanUser (.obj c4ZeroUser)).map CleanedUser.followers
        = some (JVal.num 0)) := by
  refine ⟨?_, ?_, ?_, ?_, ?_, ?_, ?_, by decide⟩ <;>
    simp [DataCleaners.cleanUser, DataCleaners.cleanTweet, UserInput.truthy,
      TweetInput.truthy, UserInput.fields, TweetInput.fields, jsCoalesce]

/-- C5: the normalizers are total (they are plain functions on every
constructor of their input types, mirroring that the source only does
guarded property access and never throws); a nullish scalar input maps
to `null`, a non-array input to the list normalizers yields the empty
list, and on arrays the list normalizers are exactly element-wise
normalization followed by dropping the `null` results. -/
theorem c5_total_normalizers (v w : JVal) (us : List UserInput) (ts : List TweetInput) :
    DataCleaners.cleanUser (.prim .null) = none
    ∧ DataCleaners.cleanUser (.prim .undefined) = none
    ∧ DataCleaners.cleanTweet (.prim .null) = none
    ∧ DataCleaners.cleanTweet (.prim .undefined) = none
    ∧ DataCleaners.cleanUserList (.notArray v) = []
    ∧ DataCleaners.cleanTweetList (.notArray w) = []
    ∧ DataCleaners.cleanUserList (.arr us) = (us.map DataCleaners.cleanUser).filterMap id
    ∧ DataCleaners.cleanTweetList (.arr ts) = (ts.map DataCleaners.cleanTweet).filterMap id := by
  refine ⟨rfl, rfl, rfl, rfl, rfl, rfl, ?_, ?_⟩
  · simp only [DataCleaners.cleanUserList]
    exact filter_isSome_filterMap _
  · simp only [DataCleaners.cleanTweetList]
    exact filter_isSome_filterMap _

/-- C6: with no session cookie stored (the slot still holds the
initial `null`), `createTweet` fails with the precondition error
`Must login first before creating tweets`, issues no upstream request,
and leaves the state unchanged. -/
theorem c6_create_tweet_requires_login (st : ServerState) (a : CreateTweetArgs)
    (up : Except String JVal) (h : st.loginCookie = JVal.null) :
    createTweet st a up
      = (.error "Must login first before creating tweets", st, []) := by
  simp [createTweet, h, JVal.truthy]

/-- C6 witness: the theorem applied at the initial state and concrete
arguments. -/
theorem c6_create_tweet_requires_login_witness :
    (⟨JVal.null⟩ : ServerState).loginCookie = JVal.null
    ∧ createTweet ⟨JVal.null⟩ {} (.ok (JVal.str "posted"))
        = (.error "Must login first before creating tweets", ⟨JVal.null⟩, []) :=
  ⟨rfl, c6_create_tweet_requires_login ⟨JVal.null⟩ {} (.ok (JVal.str "posted")) rfl⟩

/-- C7: whatever error the upstream login POST throws, `loginUser`
catches it and returns the structured body `{success: false, error: e}`
instead of letting the exception reach the dispatch boundary (its
result type is a plain `LoginResult` for every upstream outcome). -/
theorem c7_login_catches_failures (st : ServerState) (a : LoginArgs) (e : String) :
    (loginUser st a (.error e)).1 = LoginResult.failed e
    ∧ ((loginUser st a (.error e)).1).success = false
    ∧ (loginUser st a (.error e)).2.1 = st := by
  refine ⟨rfl, rfl, rfl⟩

/-- C1: for each list-returning read operation that applies the
truncation bound (the six operations that call `slice`), the data
array placed in the returned envelope is the cleaned list truncated by
`jsSlice` at the resolved bound, and for a nonnegative bound `N` that
truncation has length `min L N`, keeps the elements in their original
relative order (it is a sublist), and is the identity when `N ≥ L`. -/
theorem c1_list_truncation (fs : FS) (disk : Option String) (ts : String)
    (respT : TweetListResp) (respU : UserListResp)
    (sd : Option String) (m : Option Int)
    (h : 0 ≤ resolveMax m) :
    ((searchTweetsOp fs disk ts respT sd m).1.1.data
        = EnvData.tweets (jsSlice (searchTweetsCleaned respT) (resolveMax m)))
    ∧ truncatesTo (searchTweetsCleaned respT)
        (jsSlice (searchTweetsCleaned respT) (resolveMax m)) (resolveMax m)
    ∧ ((getUserTweetsOp fs disk ts respT sd m).1.1.data
        = EnvData.tweets (jsSlice (userTweetsCleaned respT) (resolveMax m)))
    ∧ truncatesTo (userTweetsCleaned respT)
        (jsSlice (userTweetsCleaned respT) (resolveMax m)) (resolveMax m)
    ∧ ((getTweetRepliesOp fs disk ts respT sd m).1.1.data
        = EnvData.tweets (jsSlice (tweetRepliesCleaned respT) (resolveMax m)))
    ∧ truncatesTo (tweetRepliesCleaned respT)
        (jsSlice (tweetRepliesCleaned respT) (resolveMax m)) (resolveMax m)
    ∧ ((getUserFollowersOp fs disk ts respU sd m).1.1.data
        = EnvData.users (jsSlice (followersCleaned respU) (resolveMax m)))
    ∧ truncatesTo (followersCleaned respU)
        (jsSlice (followersCleaned respU) (resolveMax m)) (resolveMax m)
    ∧ ((getUserFollowingOp fs disk ts respU sd m).1.1.data
        = EnvData.users (jsSlice (followingCleaned respU) (resolveMax m)))
    ∧ truncatesTo (followingCleaned respU)
        (jsSlice (followingCleaned respU) (resolveMax m)) (resolveMax m)
    ∧ ((searchUsersOp fs disk ts respU sd m).1.1.data
        = EnvData.users (jsSlice (searchUsersCleaned respU) (resolveMax m)))
    ∧ truncatesTo (searchUsersCleaned respU)
        (jsSlice (searchUsersCleaned respU) (resolveMax m)) (resolveMax m) := by
  refine ⟨?_, jsSlice_truncatesTo _ _ h, ?_, jsSlice_truncatesTo _ _ h,
          ?_, jsSlice_truncatesTo _ _ h, ?_, jsSlice_truncatesTo _ _ h,
          ?_, jsSlice_truncatesTo _ _ h, ?_, jsSlice_truncatesTo _ _ h⟩ <;>
    simp [searchTweetsOp, getUserTweetsOp, getTweetRepliesOp, getUserFollowersOp,
      getUserFollowingOp, searchUsersOp, formatResponse_envelope]

/-- Concrete tweet-list response with three raw tweets, used by the C1
witness. -/
def c1Tweets : TweetListResp :=
  { tweets := .arr [.obj { id := .num 1 }, .obj { id := .num 2 }, .obj { id := .num 3 }] }

/-- Concrete user-list response with three raw users, used by the C1
witness. -/
def c1Users : UserListResp :=
  { users := .arr [.obj { id := .num 1 }, .obj { id := .num 2 }, .obj { id := .num 3 }] }

/-- C1 witness: the truncation theorem applied at a concrete bound of
2 over three-element responses. -/
theorem c1_list_truncation_witness :
    0 ≤ resolveMax (some 2)
    ∧ (((searchTweetsOp ⟨[]⟩ none "t" c1Tweets none (some 2)).1.1.data
        = EnvData.tweets (jsSlice (searchTweetsCleaned c1Tweets) (resolveMax (some 2))))
    ∧ truncatesTo (searchTweetsCleaned c1Tweets)
        (jsSlice (searchTweetsCleaned c1Tweets) (resolveMax (some 2))) (resolveMax (some 2))
    ∧ ((getUserTweetsOp ⟨[]⟩ none "t" c1Tweets none (some 2)).1.1.data
        = EnvData.tweets (jsSlice (userTweetsCleaned c1Tweets) (resolveMax (some 2))))
    ∧ truncatesTo (userTweetsCleaned c1Tweets)
        (jsSlice (userTweetsCleaned c1Tweets) (resolveMax (some 2))) (resolveMax (some 2))
    ∧ ((getTweetRepliesOp ⟨[]⟩ none "t" c1Tweets none (some 2)).1.1.data
        = EnvData.tweets (jsSlice (tweetRepliesCleaned c1Tweets) (resolveMax (some 2))))
    ∧ truncatesTo (tweetRepliesCleaned c1Tweets)
        (jsSlice (tweetRepliesCleaned c1Tweets) (resolveMax (some 2))) (resolveMax (some 2))
    ∧ ((getUserFollowersOp ⟨[]⟩ none "t" c1Users none (some 2)).1.1.data
        = EnvData.users (jsSlice (followersCleaned c1Users) (resolveMax (some 2))))
    ∧ truncatesTo (followersCleaned c1Users)
        (jsSlice (followersCleaned c1Users) (resolveMax (some 2))) (resolveMax (some 2))
    ∧ ((getUserFollowingOp ⟨[]⟩ none "t" c1Users none (some 2)).1.1.data
        = EnvData.users (jsSlice (followingCleaned c1Users) (resolveMax (some 2))))
    ∧ truncatesTo (followingCleaned c1Users)
        (jsSlice (followingCleaned c1Users) (resolveMax (some 2))) (resolveMax (some 2))
    ∧ ((searchUsersOp ⟨[]⟩ none "t" c1Users none (some 2)).1.1.data
        = EnvData.users (jsSlice (searchUsersCleaned c1Users) (resolveMax (some 2))))
    ∧ truncatesTo (searchUsersCleaned c1Users)
        (jsSlice (searchUsersCleaned c1Users) (resolveMax (some 2))) (resolveMax (some 2))) :=
  ⟨by decide, c1_list_truncation ⟨[]⟩ none "t" c1Tweets c1Users none (some 2) (by decide)⟩

/-- Concrete upstream response with two tweets, the failing input for
C2. -/
def c2Resp : TweetListResp :=
  { tweets := .arr [.obj { id := .num 1 }, .obj { id := .num 2 }] }

/-- C2 at the failing input: `get_tweet_by_id`, called with
`max_items = 1` on an upstream response of two tweets, places both
cleaned tweets in the envelope — the bound (which resolves to 1) is
never applied, contradicting the claim (and the tool's own declared
`max_items` schema). -/
theorem c2_get_tweet_by_id_ignores_max :
    ((getTweetByIdOp ⟨[]⟩ none "t" c2Resp none (some 1)).1.1.data).listLen = 2
    ∧ resolveMax (some 1) = 1
    ∧ ¬(2 ≤ 1) := by
  refine ⟨rfl, rfl, by decide⟩

/-- C8: a name that is no declared tool is rejected with
`MethodNotFound`, and a declared tool whose argument object lacks one
of its required fields is rejected with `InvalidParams`; in both cases
no upstream request is issued, whatever requests the operation body
would have made. -/
theorem c8_dispatch_errors {α : Type} (bad tool f : String) (keys req : List String)
    (p1 p2 : Unit → α × List PostRequest)
    (hbad : toolRequired bad = none)
    (hreq : toolRequired tool = some req) (hf : f ∈ req) (hmiss : f ∉ keys) :
    dispatchCall bad (some keys) p1
      = (.error (.MethodNotFound, "Unknown tool: " ++ bad), [])
    ∧ dispatchCall tool (some keys) p2
      = (.error (.InvalidParams, "Missing required argument"), []) := by
  constructor
  · simp [dispatchCall, hbad]
  · have hall : req.all (fun r => keys.contains r) = false := by
      rw [List.all_eq_false]
      exact ⟨f, hf, by simpa using hmiss⟩
    simp [dispatchCall, hreq, hall]
    exact ⟨f, hf, hmiss⟩

/-- C8 witness: the dispatch theorem applied to the unknown name
`teleport` and to `search_tweets` called without its required `query`
argument; the operation body passed for `search_tweets` would have
issued an upstream request, and none is. -/
theorem c8_dispatch_errors_witness :
    toolRequired "teleport" = none
    ∧ toolRequired "search_tweets" = some ["query"]
    ∧ "query" ∈ ["query"]
    ∧ "query" ∉ ["cursor"]
    ∧ (dispatchCall "teleport" (some ["cursor"]) (fun _ => ((), []))
        = (.error (.MethodNotFound, "Unknown tool: " ++ "teleport"), [])
      ∧ dispatchCall "search_tweets" (some ["cursor"])
          (fun _ => ((), [{ endpoint := "/tweet/advanced_search", body := [] }]))
        = (.error (.InvalidParams, "Missing required argument"), [])) :=
  ⟨rfl, rfl, by decide, by decide,
   c8_dispatch_errors "teleport" "search_tweets" "query" ["cursor"] ["query"]
     (fun _ => ((), []))
     (fun _ => ((), [{ endpoint := "/tweet/advanced_search", body := [] }]))
     rfl rfl (by decide) (by decide)⟩

/-- C9: when a save directory and tool name are supplied and the write
succeeds, `formatResponse` appends exactly one new JSON file to the
file system, the stored (parsed) contents of that file are the very
envelope returned in the response, and the saved path is reported as
the trailing note; when the write fails, the file system is untouched,
the note carries the `Error saving:` string, and the call still
returns the same envelope rather than failing. -/
theorem c9_persistence_roundtrip (fs : FS) (ts dir tool e : String)
    (d : EnvData) (p : Option RawPagination)
    (hdir : dir ≠ "") (htool : tool ≠ "") :
    ((formatResponse fs none ts d
        { saveDir := some dir, toolName := some tool, pagination := p }).2.files
      = fs.files ++ [(dir ++ "/" ++ tool ++ "_" ++ ts ++ ".json",
          (formatResponse fs none ts d
            { saveDir := some dir, toolName := some tool, pagination := p }).1.1)])
    ∧ ((formatResponse fs none ts d
          { saveDir := some dir, toolName := some tool, pagination := p }).1.2
        = dir ++ "/" ++ tool ++ "_" ++ ts ++ ".json")
    ∧ ((formatResponse fs (some e) ts d
          { saveDir := some dir, toolName := some tool, pagination := p }).2 = fs)
    ∧ ((formatResponse fs (some e) ts d
          { saveDir := some dir, toolName := some tool, pagination := p }).1.2
        = "Error saving: " ++ e)
    ∧ ((formatResponse fs (some e) ts d
          { saveDir := some dir, toolName := some tool, pagination := p }).1.1
        = (formatResponse fs none ts d
            { saveDir := some dir, toolName := some tool, pagination := p }).1.1) := by
  refine ⟨?_, ?_, ?_, ?_, ?_⟩ <;>
    simp [formatResponse, saveData, hdir, htool]

/-- C9 witness: the persistence theorem applied to a concrete call
saving into `out` and to a concrete failing write. -/
theorem c9_persistence_roundtrip_witness :
    ("out" : String) ≠ ""
    ∧ ("search_tweets" : String) ≠ ""
    ∧ (((formatResponse ⟨[]⟩ none "2025-01-01" (.tweets [])
          { saveDir := some "out", toolName := some "search_tweets", pagination := none }).2.files
        = (⟨[]⟩ : FS).files ++ [("out" ++ "/" ++ "search_tweets" ++ "_" ++ "2025-01-01" ++ ".json",
            (formatResponse ⟨[]⟩ none "2025-01-01" (.tweets [])
              { saveDir := some "out", toolName := some "search_tweets", pagination := none }).1.1)])
      ∧ ((formatResponse ⟨[]⟩ none "2025-01-01" (.tweets [])
            { saveDir := some "out", toolName := some "search_tweets", pagination := none }).1.2
          = "out" ++ "/" ++ "search_tweets" ++ "_" ++ "2025-01-01" ++ ".json")
      ∧ ((formatResponse ⟨[]⟩ (some "disk full") "2025-01-01" (.tweets [])
            { saveDir := some "out", toolName := some "search_tweets", pagination := none }).2 = ⟨[]⟩)
      ∧ ((formatResponse ⟨[]⟩ (some "disk full") "2025-01-01" (.tweets [])
            { saveDir := some "out", toolName := some "search_tweets", pagination := none }).1.2
          = "Error saving: " ++ "disk full")
      ∧ ((formatResponse ⟨[]⟩ (some "disk full") "2025-01-01" (.tweets [])
            { saveDir := some "out", toolName := some "search_tweets", pagination := none }).1.1
          = (formatResponse ⟨[]⟩ none "2025-01-01" (.tweets [])
              { saveDir := some "out", toolName := some "search_tweets", pagination := none }).1.1)) :=
  ⟨by decide, by decide,
   c9_persistence_roundtrip ⟨[]⟩ "2025-01-01" "out" "search_tweets" "disk full"
     (.tweets []) none (by decide) (by decide)⟩

/-- C10 counterexample: an upstream login response whose body carries
the `login_cookie` field with the (defined, non-null) empty-string
value does not overwrite the cookie slot — the guard is truthiness,
not field presence — so the claim's "exactly when the body contains a
login_cookie field" fails at this input. -/
theorem c10_counterexample :
    (loginUser ⟨JVal.null⟩ {}
        (.ok { status := .str "success", msg := .undefined, login_cookie := .str "" })).2.1.loginCookie
      = JVal.null
    ∧ JVal.str "" ≠ JVal.undefined := by
  refine ⟨rfl, by decide⟩

/-- C10 (amended): `loginUser` overwrites the process-wide cookie slot
exactly when the upstream response body carries a truthy
`login_cookie` value, independently of the `status` field; hence a
login whose returned result reports `success: false` (status not
`success`) still sets the cookie, and a subsequent `createTweet` call
passes the precondition check and sends exactly that cookie as the
`login_cookies` field of its upstream request body. -/
theorem c10_cookie_truthy (st : ServerState) (a : LoginArgs) (d : LoginResp)
    (ht : d.login_cookie.truthy = true) (hs : d.status ≠ JVal.str "success") :
    (∀ st2 a2 d2, (loginUser st2 a2 (.ok d2)).2.1.loginCookie
        = (if d2.login_cookie.truthy then d2.login_cookie else st2.loginCookie))
    ∧ ((loginUser st a (.ok d)).1).success = false
    ∧ (loginUser st a (.ok d)).2.1.loginCookie = d.login_cookie
    ∧ (∀ ca up, (createTweet (loginUser st a (.ok d)).2.1 ca up).2.2.length = 1
        ∧ ∀ r ∈ (createTweet (loginUser st a (.ok d)).2.1 ca up).2.2,
            r.endpoint = "/create_tweet_v2"
            ∧ ("login_cookies", BodyVal.v d.login_cookie) ∈ r.body) := by
  have hst : (loginUser st a (.ok d)).2.1 = { st with loginCookie := d.login_cookie } := by
    simp [loginUser, ht]
  refine ⟨?_, ?_, ?_, ?_⟩
  · intro st2 a2 d2
    simp only [loginUser]
    split <;> rfl
  · simp [loginUser, LoginResult.success, hs]
  · rw [hst]
  · intro ca up
    rw [hst]
    constructor
    · simp [createTweet, ht]
    · intro r hr
      simp [createTweet, ht] at hr
      subst hr
      constructor
      · rfl
      · simp

/-- C10 witness: the amended theorem applied to a concrete response
with `status: "error"` and cookie `"abc"`. -/
theorem c10_cookie_truthy_witness :
    (JVal.str "abc").truthy = true
    ∧ JVal.str "error" ≠ JVal.str "success"
    ∧ ((∀ st2 a2 d2, (loginUser st2 a2 (.ok d2)).2.1.loginCookie
        = (if d2.login_cookie.truthy then d2.login_cookie else st2.loginCookie))
      ∧ ((loginUser ⟨JVal.null⟩ {}
            (.ok { status := .str "error", msg := .undefined, login_cookie := .str "abc" })).1).success = false
      ∧ (loginUser ⟨JVal.null⟩ {}
            (.ok { status := .str "error", msg := .undefined, login_cookie := .str "abc" })).2.1.loginCookie
          = JVal.str "abc"
      ∧ (∀ ca up, (createTweet (loginUser ⟨JVal.null⟩ {}
            (.ok { status := .str "error", msg := .undefined, login_cookie := .str "abc" })).2.1 ca up).2.2.length = 1
          ∧ ∀ r ∈ (createTweet (loginUser ⟨JVal.null⟩ {}
              (.ok { status := .str "error", msg := .undefined, login_cookie := .str "abc" })).2.1 ca up).2.2,
              r.endpoint = "/create_tweet_v2"
              ∧ ("login_cookies", BodyVal.v (JVal.str "abc")) ∈ r.body)) :=
  ⟨by decide, by decide,
   c10_cookie_truthy ⟨JVal.null⟩ {}
     { status := .str "error", msg := .undefined, login_cookie := .str "abc" }
     (by decide) (by decide)⟩
